import Mathlib

/-!
Verification of the availability-checker booking backend.

The repository is a set of service functions over a relational store
(prisma models User, UserProfile, ProfessionalProfile, Availability,
Appointment, Notification).  We embed the store as an explicit record of
row lists plus id counters, and each service function from
`src/project/*_service.py` as a state transformer `DB → DB × Response`.
Timestamps (`datetime`) are modelled as natural numbers counting
microseconds (Python datetimes have microsecond resolution); calendar
dates are natural numbers counting days, with a day `d` starting at
instant `d * usPerDay`.

Where the Python code reads the ambient clock (`datetime.now()`,
`datetime.utcnow()`, or a database `now()` default filling `createdAt`),
the embedded function takes the current instant as an explicit `now`
argument.  Where the Python code can receive an exception from the
persistence layer (the `Appointment.create` call inside
`bookAppointment`, wrapped in `try/except`), the embedded function takes
the outcome of that call as an explicit `createFail : Option String`
argument (`none` = the insert succeeds, `some e` = the insert raises an
error whose text is `e`).
-/

/-- Appointment status enum (`prisma.enums.AppointmentStatus`). -/
inductive AppointmentStatus where
  | PENDING
  | CONFIRMED
  | CANCELLED
  | COMPLETED
deriving DecidableEq, Repr

/-- Text of a status value as rendered into notification messages. -/
def statusText : AppointmentStatus → String
  | .PENDING => "PENDING"
  | .CONFIRMED => "CONFIRMED"
  | .CANCELLED => "CANCELLED"
  | .COMPLETED => "COMPLETED"

/-- prisma model `UserProfile`: personal data (first/last name) owned by a user. -/
structure UserProfile where
  id : Nat
  firstName : String
  lastName : String
deriving DecidableEq, Repr

/-- prisma model `ProfessionalProfile`: belongs to one UserProfile (`profileId`). -/
structure ProfessionalProfile where
  id : Nat
  profileId : Nat
deriving DecidableEq, Repr

/-- prisma model `Availability`: one (professionalId, datetime, isAvailable) slot. -/
structure Availability where
  id : Nat
  professionalId : Nat
  datetime : Nat
  isAvailable : Bool
deriving DecidableEq, Repr

/-- prisma model `Appointment`: a client, a professional, a time, a status. -/
structure Appointment where
  id : Nat
  userId : Nat
  professionalId : Nat
  scheduledTime : Nat
  status : AppointmentStatus
deriving DecidableEq, Repr

/-- prisma model `Notification`: recipient, message, creation time, read flag. -/
structure Notification where
  id : Nat
  userId : Nat
  message : String
  createdAt : Nat
  isRead : Bool
deriving DecidableEq, Repr

/-- The persistent store: row lists (in insertion order, as a relational
table scanned by `find_first` / `find_many`) plus auto-increment counters. -/
structure DB where
  userProfiles : List UserProfile
  professionalProfiles : List ProfessionalProfile
  availabilities : List Availability
  appointments : List Appointment
  notifications : List Notification
  nextAvailabilityId : Nat
  nextAppointmentId : Nat
  nextNotificationId : Nat
deriving DecidableEq, Repr

/-- `BookingResponse` from `bookAppointment_service.py`. -/
structure BookingResponse where
  success : Bool
  message : String
  appointmentId : Option Nat
deriving DecidableEq, Repr

/-- `CancelBookingResponse` from `cancelAppointment_service.py`. -/
structure CancelBookingResponse where
  success : Bool
  message : String
deriving DecidableEq, Repr

/-- The `find_first` reservation lookup at the top of `bookAppointment`
(`bookAppointment_service.py` lines 33-39): first Availability row with
exactly the requested professionalId and datetime and `isAvailable=True`. -/
def reservationCheck (professionalId scheduledTime : Nat) (db : DB) :
    Option Availability :=
  db.availabilities.find?
    (fun a => a.professionalId == professionalId &&
      a.datetime == scheduledTime && a.isAvailable)

/-- `bookAppointment(userId, professionalId, scheduledTime)` from
`bookAppointment_service.py`.  `createFail` is the outcome of the
`Appointment.prisma().create` call (see the header comment); `now` is the
clock instant the database's `createdAt` default reads.  Source order:
find_first availability; fail if absent; create Appointment (caught on
exception); flip the found slot to unavailable by id; create one
Notification to the professional; return success with the new id. -/
def bookAppointment (createFail : Option String) (now : Nat)
    (userId professionalId scheduledTime : Nat) (db : DB) :
    DB × BookingResponse :=
  match reservationCheck professionalId scheduledTime db with
  | none =>
    (db, ⟨false, "No available slots at the requested time.", none⟩)
  | some availability =>
    match createFail with
    | some e => (db, ⟨false, e, none⟩)
    | none =>
      let newAppointment : Appointment :=
        ⟨db.nextAppointmentId, userId, professionalId, scheduledTime,
          .PENDING⟩
      let db := { db with
        appointments := db.appointments ++ [newAppointment],
        nextAppointmentId := db.nextAppointmentId + 1 }
      let db := { db with
        availabilities := db.availabilities.map
          (fun (s : Availability) => if s.id == availability.id
            then { s with isAvailable := false } else s) }
      let notif : Notification :=
        ⟨db.nextNotificationId, professionalId,
          "New appointment booked for " ++ toString scheduledTime, now, false⟩
      let db := { db with
        notifications := db.notifications ++ [notif],
        nextNotificationId := db.nextNotificationId + 1 }
      (db, ⟨true, "Appointment booked successfully.",
        some newAppointment.id⟩)

/-- `cancelAppointment(appointment_id)` from `cancelAppointment_service.py`.
Source order: find_unique Appointment by id; "Appointment not found." if
absent; "Appointment is already cancelled." if status is CANCELLED; update
the status to CANCELLED; `update_many` every Availability row matching the
appointment's (datetime, professionalId) to `isAvailable=True`;
`create_many` two Notifications (client then professional); return
success.  `now` fills the Notification rows' `createdAt` database
default. -/
def cancelAppointment (now : Nat) (appointment_id : Nat) (db : DB) :
    DB × CancelBookingResponse :=
  match db.appointments.find? (fun a => a.id == appointment_id) with
  | none => (db, ⟨false, "Appointment not found."⟩)
  | some appointment =>
    if appointment.status = AppointmentStatus.CANCELLED then
      (db, ⟨false, "Appointment is already cancelled."⟩)
    else
      let updatedAppointment := { appointment with
        status := AppointmentStatus.CANCELLED }
      let db := { db with
        appointments := db.appointments.map
          (fun (a : Appointment) => if a.id == appointment_id
            then { a with status := AppointmentStatus.CANCELLED } else a) }
      let db := { db with
        availabilities := db.availabilities.map
          (fun (s : Availability) =>
            if s.datetime == updatedAppointment.scheduledTime &&
               s.professionalId == updatedAppointment.professionalId
            then { s with isAvailable := true } else s) }
      let userNotification : Notification :=
        ⟨db.nextNotificationId, updatedAppointment.userId,
          "Your appointment has been cancelled.", now, false⟩
      let professionalNotification : Notification :=
        ⟨db.nextNotificationId + 1, updatedAppointment.professionalId,
          "An appointment has been cancelled.", now, false⟩
      let db := { db with
        notifications := db.notifications ++
          [userNotification, professionalNotification],
        nextNotificationId := db.nextNotificationId + 2 }
      (db, ⟨true, "The appointment has been successfully cancelled."⟩)

/-- The nested pydantic model `Appointment` declared inside
`updateAppointment_service.py` (scheduledTime and status only). -/
structure AppointmentView where
  scheduledTime : Nat
  status : AppointmentStatus
deriving DecidableEq, Repr

/-- `UpdateAppointmentResponse` from `updateAppointment_service.py`.
Both `updatedAppointment` and `notification` are declared as required
(non-Optional) pydantic fields: constructing the response with `None`
for either of them raises a pydantic ValidationError. -/
structure UpdateAppointmentResponse where
  success : Bool
  message : String
  updatedAppointment : AppointmentView
  notification : Notification
deriving DecidableEq, Repr

/-- `updateAppointment(appointmentId, newScheduledTime, status)` from
`updateAppointment_service.py`.  The whole body sits in a `try`; the
`except` handler builds a failure `UpdateAppointmentResponse` with
`updatedAppointment=None, notification=None`.  Because those two fields
are required, that construction itself raises a ValidationError, which
is outside the `try` and escapes the function.  The not-found branch
inside the `try` attempts the same `None`-filled construction, whose
ValidationError is caught by the `except` and then re-triggered there.
So the absent-appointment path raises instead of returning a result;
`Except.error` models the escaping exception.  On the found path the
status is applied unconditionally and the scheduledTime only when
provided (Python truthiness of an Optional datetime), one Notification
is created for the appointment's user, and a success response is
returned. -/
def updateAppointment (now : Nat) (appointmentId : Nat)
    (newScheduledTime : Option Nat) (status : AppointmentStatus)
    (db : DB) : DB × Except String UpdateAppointmentResponse :=
  match db.appointments.find? (fun a => a.id == appointmentId) with
  | none =>
    (db, .error
      "ValidationError: none is not an allowed value (updatedAppointment, notification)")
  | some appointment =>
    let updatedAppointment := { appointment with
      status := status,
      scheduledTime := newScheduledTime.getD appointment.scheduledTime }
    let db := { db with
      appointments := db.appointments.map
        (fun (a : Appointment) =>
          if a.id == appointmentId then updatedAppointment else a) }
    let notification : Notification :=
      ⟨db.nextNotificationId, updatedAppointment.userId,
        "Appointment status updated to " ++ statusText status ++ ".",
        now, false⟩
    let db := { db with
      notifications := db.notifications ++ [notification],
      nextNotificationId := db.nextNotificationId + 1 }
    (db, .ok ⟨true, "Appointment updated successfully.",
      ⟨updatedAppointment.scheduledTime, updatedAppointment.status⟩,
      notification⟩)

/-- `AvailabilityUpdateResponse` from `updateAvailability_service.py`. -/
structure AvailabilityUpdateResponse where
  professionalId : Nat
  updatedStatus : Bool
  message : String
deriving DecidableEq, Repr

/-- Microseconds per calendar day (Python datetimes have microsecond
resolution). -/
def usPerDay : Nat := 86400000000

/-- Civil date (year, month, day) from a count of days since the epoch
(standard days-to-civil conversion, used to render `%Y-%m-%d`). -/
def civilFromDays (days : Nat) : Nat × Nat × Nat :=
  let z := days + 719468
  let era := z / 146097
  let doe := z % 146097
  let yoe := (doe - doe / 1460 + doe / 36524 - doe / 146096) / 365
  let y := yoe + era * 400
  let doy := doe - (365 * yoe + yoe / 4 - yoe / 100)
  let mp := (5 * doy + 2) / 153
  let d := doy - (153 * mp + 2) / 5 + 1
  let m := if mp < 10 then mp + 3 else mp - 9
  (if m ≤ 2 then y + 1 else y, m, d)

/-- Zero-pad a number to two digits. -/
def pad2 (n : Nat) : String :=
  if n < 10 then "0" ++ toString n else toString n

/-- Zero-pad a number to four digits. -/
def pad4 (n : Nat) : String :=
  if n < 10 then "000" ++ toString n
  else if n < 100 then "00" ++ toString n
  else if n < 1000 then "0" ++ toString n
  else toString n

/-- `datetime.strftime('%Y-%m-%d %H:%M')` on a microsecond instant. -/
def strftimeYmdHM (t : Nat) : String :=
  let rem := t % usPerDay
  let hh := rem / 3600000000
  let mm := rem % 3600000000 / 60000000
  match civilFromDays (t / usPerDay) with
  | (y, m, d) =>
    pad4 y ++ "-" ++ pad2 m ++ "-" ++ pad2 d ++ " " ++
      pad2 hh ++ ":" ++ pad2 mm

/-- `updateAvailability(professionalId, datetime, isAvailable)` from
`updateAvailability_service.py`.  Source order: find_first Availability
matching (professionalId, datetime); if found, `update_many` by its id
setting `isAvailable`; otherwise create a new row with the flag; then
always create one Notification to the professional with a
human-readable message, and return the confirmation response.  `now`
is the `datetime.utcnow()` value used for the notification's
`createdAt`. -/
def updateAvailability (now : Nat) (professionalId datetime : Nat)
    (isAvailable : Bool) (db : DB) : DB × AvailabilityUpdateResponse :=
  let found := db.availabilities.find?
    (fun a => a.professionalId == professionalId && a.datetime == datetime)
  let db :=
    match found with
    | some availability =>
      { db with
        availabilities := db.availabilities.map
          (fun (s : Availability) => if s.id == availability.id
            then { s with isAvailable := isAvailable } else s) }
    | none =>
      { db with
        availabilities := db.availabilities ++
          [(⟨db.nextAvailabilityId, professionalId, datetime, isAvailable⟩ :
            Availability)],
        nextAvailabilityId := db.nextAvailabilityId + 1 }
  let message := "Your availability for " ++ strftimeYmdHM datetime ++
    " has been set to " ++
    (if isAvailable then "available" else "not available") ++ "."
  let notif : Notification :=
    ⟨db.nextNotificationId, professionalId, message, now, false⟩
  let db := { db with
    notifications := db.notifications ++ [notif],
    nextNotificationId := db.nextNotificationId + 1 }
  (db, ⟨professionalId, isAvailable,
    "Availability successfully updated and notification sent."⟩)

/-- `ProfessionalAvailability` from `checkAvailability_service.py` (the
identical model is redeclared in `getAvailableTimeSlots_service.py`). -/
structure ProfessionalAvailability where
  professionalId : Nat
  name : String
  availability : Bool
  nextAvailableTime : Option Nat
deriving DecidableEq, Repr

/-- `AvailabilityResponse`: wraps the list of availability entries. -/
structure AvailabilityResponse where
  availabilities : List ProfessionalAvailability
deriving DecidableEq, Repr

/-- Instant `23:59:59.999999` of day `d`: `datetime.combine(date,
datetime.max.time())`, the `day_end` bound of `checkAvailability`. -/
def dayEndMax (d : Nat) : Nat := d * usPerDay + 86399999999

/-- The `where` filter `checkAvailability` builds (lines 45-51 of
`checkAvailability_service.py`): optional professional match, and for a
date filter `datetime >= day_start` (00:00:00) and strictly
`datetime < day_end` (23:59:59.999999).  The professional condition in
the source is the relation filter `professional: some: id =
professionalId`, i.e. the row's professional has the given id, embedded
as equality on the row's `professionalId` foreign key. -/
def checkAvailabilityFilter (professionalId : Option Nat)
    (date : Option Nat) (a : Availability) : Bool :=
  (match professionalId with
   | some p => a.professionalId == p
   | none => true) &&
  (match date with
   | some d => decide (d * usPerDay ≤ a.datetime) &&
       decide (a.datetime < dayEndMax d)
   | none => true)

/-- The rows `checkAvailability`'s `find_many` returns, in table order. -/
def checkAvailabilitySelect (professionalId : Option Nat)
    (date : Option Nat) (db : DB) : List Availability :=
  db.availabilities.filter (checkAvailabilityFilter professionalId date)

/-- The projection the loop in `checkAvailability` applies to each row:
resolve `availability.professional` and its `.profile`, then build a
`ProfessionalAvailability` whose `professionalId` and `name` are taken
from the resolved UserProfile (`professional.id` in the source is the
profile's id).  `none` models the AttributeError raised when a relation
row is missing. -/
def professionalAvailabilityOf (db : DB) (a : Availability) :
    Option ProfessionalAvailability := do
  let pp ← db.professionalProfiles.find? (fun p => p.id == a.professionalId)
  let prof ← db.userProfiles.find? (fun u => u.id == pp.profileId)
  pure ⟨prof.id, prof.firstName ++ " " ++ prof.lastName, a.isAvailable,
    if a.isAvailable then some a.datetime else none⟩

/-- `checkAvailability(professionalId, date)` from
`checkAvailability_service.py`: find_many with the optional filters,
then map each row through the profile projection.  A read-only
operation; `none` models an exception escaping (missing relation). -/
def checkAvailability (professionalId : Option Nat) (date : Option Nat)
    (db : DB) : Option AvailabilityResponse :=
  ((checkAvailabilitySelect professionalId date db).mapM
    (professionalAvailabilityOf db)).map AvailabilityResponse.mk

/-- `getAvailableTimeSlots(professionalId, start_date, end_date)` from
`getAvailableTimeSlots_service.py`: find_unique the ProfessionalProfile
by id, including its availabilities with `start_date <= datetime <=
end_date` (both bounds inclusive: `gte`/`lte`); if the professional is
absent, return an empty list; otherwise project each included row with
the professional's profile name.  Read-only; the response is `none`
when the profile relation of a found professional is missing
(AttributeError). -/
def getAvailableTimeSlots (professionalId start_date end_date : Nat)
    (db : DB) : DB × Option AvailabilityResponse :=
  match db.professionalProfiles.find? (fun p => p.id == professionalId) with
  | none => (db, some ⟨[]⟩)
  | some professional =>
    let included := db.availabilities.filter
      (fun a => decide (start_date ≤ a.datetime) &&
        decide (a.datetime ≤ end_date) && a.professionalId == professionalId)
    match db.userProfiles.find? (fun u => u.id == professional.profileId) with
    | none => (db, none)
    | some prof =>
      (db, some ⟨included.map (fun a =>
        ⟨professionalId, prof.firstName ++ " " ++ prof.lastName,
          a.isAvailable,
          if a.isAvailable then some a.datetime else none⟩)⟩)

/-- The day-boundary selection as the specification words it: the
inclusive boundary [00:00:00, 23:59:59.999] of the calendar day, i.e.
timestamps up to and including millisecond 23:59:59.999.  Stated from
the spec's words, to be compared with `checkAvailabilitySelect`. -/
def specClaimedDaySelect (professionalId : Option Nat)
    (date : Option Nat) (db : DB) : List Availability :=
  db.availabilities.filter (fun a =>
    (match professionalId with
     | some p => a.professionalId == p
     | none => true) &&
    (match date with
     | some d => decide (d * usPerDay ≤ a.datetime) &&
         decide (a.datetime ≤ d * usPerDay + 86399999000)
     | none => true))

/-! ## Sample stores used by witness theorems -/

/-- An empty store. -/
def dbEmpty : DB := ⟨[], [], [], [], [], 1, 1, 1⟩

/-- A store with one available slot for professional 2 at instant 100. -/
def dbA : DB := ⟨[], [], [⟨1, 2, 100, true⟩], [], [], 2, 1, 1⟩

/-- A store with a CONFIRMED appointment 101 (user 5, professional 2,
time 100) and the corresponding booked-out slot. -/
def dbB : DB :=
  ⟨[], [], [⟨1, 2, 100, false⟩], [⟨101, 5, 2, 100, .CONFIRMED⟩], [],
    2, 102, 1⟩

/-! ## Claims -/

/-- C1: the reservation check inside `book` succeeds iff an Availability
row exists with exactly the requested professionalId and datetime and
`isAvailable=true`; when no such row exists, `bookAppointment` returns a
failure result with message "No available slots at the requested time."
and leaves the store unchanged (for any outcome of the create step and
any clock value). -/
theorem bookAppointment_reservation_iff (createFail : Option String)
    (now userId professionalId scheduledTime : Nat) (db : DB) :
    ((reservationCheck professionalId scheduledTime db).isSome ↔
      ∃ a ∈ db.availabilities, a.professionalId = professionalId ∧
        a.datetime = scheduledTime ∧ a.isAvailable = true) ∧
    (reservationCheck professionalId scheduledTime db = none →
      bookAppointment createFail now userId professionalId scheduledTime db =
        (db, ⟨false, "No available slots at the requested time.", none⟩)) := by
  constructor
  · rw [reservationCheck, List.find?_isSome]
    constructor
    · rintro ⟨a, ha, hp⟩
      simp only [Bool.and_eq_true, beq_iff_eq] at hp
      exact ⟨a, ha, hp.1.1, hp.1.2, hp.2⟩
    · rintro ⟨a, ha, h1, h2, h3⟩
      exact ⟨a, ha, by simp [h1, h2, h3]⟩
  · intro h
    simp [bookAppointment, h]

/-- Witness for C1 at a store with no slots. -/
theorem bookAppointment_reservation_iff_witness :
    bookAppointment none 0 1 2 100 dbEmpty =
      (dbEmpty, ⟨false, "No available slots at the requested time.", none⟩) :=
  (bookAppointment_reservation_iff none 0 1 2 100 dbEmpty).2 rfl

/-- C2: when the reservation check finds a slot and the Appointment
insert succeeds, `bookAppointment` appends exactly one new Appointment
row carrying (userId, professionalId, scheduledTime), flips exactly the
found slot's `isAvailable` flag to false, appends exactly one
Notification addressed to the professional, and returns success with
the new Appointment's id. -/
theorem bookAppointment_success (now userId professionalId scheduledTime : Nat)
    (db : DB) (slot : Availability)
    (h : reservationCheck professionalId scheduledTime db = some slot) :
    (bookAppointment none now userId professionalId scheduledTime db).2 =
      ⟨true, "Appointment booked successfully.", some db.nextAppointmentId⟩ ∧
    (bookAppointment none now userId professionalId scheduledTime db).1.appointments =
      db.appointments ++
        [⟨db.nextAppointmentId, userId, professionalId, scheduledTime, .PENDING⟩] ∧
    (bookAppointment none now userId professionalId scheduledTime db).1.availabilities =
      db.availabilities.map
        (fun (s : Availability) => if s.id == slot.id
          then { s with isAvailable := false } else s) ∧
    ∃ n : Notification,
      (bookAppointment none now userId professionalId scheduledTime db).1.notifications =
        db.notifications ++ [n] ∧ n.userId = professionalId := by
  refine ⟨?_, ?_, ?_, ?_⟩ <;> simp [bookAppointment, h]

/-- Witness for C2 on `dbA`. -/
theorem bookAppointment_success_witness :
    (bookAppointment none 0 7 2 100 dbA).2 =
      ⟨true, "Appointment booked successfully.", some dbA.nextAppointmentId⟩ ∧
    (bookAppointment none 0 7 2 100 dbA).1.appointments =
      dbA.appointments ++ [⟨dbA.nextAppointmentId, 7, 2, 100, .PENDING⟩] ∧
    (bookAppointment none 0 7 2 100 dbA).1.availabilities =
      dbA.availabilities.map
        (fun (s : Availability) => if s.id == (⟨1, 2, 100, true⟩ : Availability).id
          then { s with isAvailable := false } else s) ∧
    ∃ n : Notification,
      (bookAppointment none 0 7 2 100 dbA).1.notifications =
        dbA.notifications ++ [n] ∧ n.userId = 2 :=
  bookAppointment_success 0 7 2 100 dbA ⟨1, 2, 100, true⟩ rfl

/-- C7: when the reservation check finds a slot but the Appointment
insert raises a persistence error, `bookAppointment` returns a failure
result whose message is the underlying error text and the whole store —
the reserved slot included — is left unchanged (no flag flip, no
Notification). -/
theorem bookAppointment_create_failure (e : String)
    (now userId professionalId scheduledTime : Nat) (db : DB)
    (slot : Availability)
    (h : reservationCheck professionalId scheduledTime db = some slot) :
    bookAppointment (some e) now userId professionalId scheduledTime db =
      (db, ⟨false, e, none⟩) := by
  simp [bookAppointment, h]

/-- Witness for C7 on `dbA`. -/
theorem bookAppointment_create_failure_witness :
    bookAppointment (some "connection lost") 0 7 2 100 dbA =
      (dbA, ⟨false, "connection lost", none⟩) :=
  bookAppointment_create_failure "connection lost" 0 7 2 100 dbA
    ⟨1, 2, 100, true⟩ rfl

/-- C3: on an existing appointment whose status is not CANCELLED,
`cancelAppointment` returns success with message "The appointment has
been successfully cancelled.", rewrites that appointment's status to
CANCELLED, sets `isAvailable=true` on every Availability row whose
(professionalId, datetime) equal the appointment's (professionalId,
scheduledTime), and appends exactly two Notifications: the first to the
appointment's user, the second to its professional. -/
theorem cancelAppointment_success (now appointment_id : Nat) (db : DB)
    (appt : Appointment)
    (hfind : db.appointments.find? (fun a => a.id == appointment_id) = some appt)
    (hst : appt.status ≠ AppointmentStatus.CANCELLED) :
    (cancelAppointment now appointment_id db).2 =
      ⟨true, "The appointment has been successfully cancelled."⟩ ∧
    (cancelAppointment now appointment_id db).1.appointments =
      db.appointments.map
        (fun (a : Appointment) => if a.id == appointment_id
          then { a with status := AppointmentStatus.CANCELLED } else a) ∧
    (∀ s ∈ (cancelAppointment now appointment_id db).1.availabilities,
      s.professionalId = appt.professionalId →
      s.datetime = appt.scheduledTime → s.isAvailable = true) ∧
    ∃ n₁ n₂ : Notification,
      (cancelAppointment now appointment_id db).1.notifications =
        db.notifications ++ [n₁, n₂] ∧
      n₁.userId = appt.userId ∧ n₂.userId = appt.professionalId := by
  refine ⟨?_, ?_, ?_, ?_⟩
  · simp [cancelAppointment, hfind, hst]
  · simp [cancelAppointment, hfind, hst]
  · intro s hs hp hd
    simp only [cancelAppointment, hfind, hst, if_neg, ite_false,
      List.mem_map] at hs
    obtain ⟨s₀, _, rfl⟩ := hs
    by_cases hc : (s₀.datetime == appt.scheduledTime &&
        s₀.professionalId == appt.professionalId) = true
    · simp [hc]
    · simp only [hc, ite_false] at hp hd ⊢
      simp only [Bool.and_eq_true, beq_iff_eq] at hc
      exact absurd ⟨hd, hp⟩ hc
  · refine ⟨⟨db.nextNotificationId, appt.userId,
      "Your appointment has been cancelled.", now, false⟩,
      ⟨db.nextNotificationId + 1, appt.professionalId,
      "An appointment has been cancelled.", now, false⟩, ?_, rfl, rfl⟩
    simp [cancelAppointment, hfind, hst]

/-- Witness for C3 on `dbB` (appointment 101, CONFIRMED). -/
theorem cancelAppointment_success_witness :
    (cancelAppointment 0 101 dbB).2 =
      ⟨true, "The appointment has been successfully cancelled."⟩ ∧
    (cancelAppointment 0 101 dbB).1.appointments =
      dbB.appointments.map
        (fun (a : Appointment) => if a.id == 101
          then { a with status := AppointmentStatus.CANCELLED } else a) ∧
    (∀ s ∈ (cancelAppointment 0 101 dbB).1.availabilities,
      s.professionalId = (⟨101, 5, 2, 100, .CONFIRMED⟩ : Appointment).professionalId →
      s.datetime = (⟨101, 5, 2, 100, .CONFIRMED⟩ : Appointment).scheduledTime →
      s.isAvailable = true) ∧
    ∃ n₁ n₂ : Notification,
      (cancelAppointment 0 101 dbB).1.notifications =
        dbB.notifications ++ [n₁, n₂] ∧
      n₁.userId = (⟨101, 5, 2, 100, .CONFIRMED⟩ : Appointment).userId ∧
      n₂.userId = (⟨101, 5, 2, 100, .CONFIRMED⟩ : Appointment).professionalId :=
  cancelAppointment_success 0 101 dbB ⟨101, 5, 2, 100, .CONFIRMED⟩ rfl
    (by decide)

/-- Auxiliary: `find?` distributes over `map`. -/
theorem find?_over_map {α β : Type} (f : α → β) (p : β → Bool) (l : List α) :
    (l.map f).find? p = (l.find? (fun a => p (f a))).map f := by
  induction l with
  | nil => rfl
  | cons x xs ih =>
    by_cases h : p (f x) = true <;> simp [List.find?, h, ih]

/-- C4: `cancel` is not idempotent — on an existing non-cancelled
appointment, a first `cancelAppointment` succeeds and a second call on
the resulting store fails with "Appointment is already cancelled."; and
on an id with no matching appointment, `cancelAppointment` fails with
"Appointment not found." and leaves the store unchanged. -/
theorem cancelAppointment_not_idempotent (now now2 appointment_id : Nat)
    (db : DB) :
    (∀ appt : Appointment,
      db.appointments.find? (fun a => a.id == appointment_id) = some appt →
      appt.status ≠ AppointmentStatus.CANCELLED →
      (cancelAppointment now appointment_id db).2.success = true ∧
      (cancelAppointment now2 appointment_id
        (cancelAppointment now appointment_id db).1).2 =
        ⟨false, "Appointment is already cancelled."⟩) ∧
    (db.appointments.find? (fun a => a.id == appointment_id) = none →
      cancelAppointment now appointment_id db =
        (db, ⟨false, "Appointment not found."⟩)) := by
  constructor
  · intro appt hfind hst
    constructor
    · simp [cancelAppointment, hfind, hst]
    · have hid := List.find?_some hfind
      have h1 : (cancelAppointment now appointment_id db).1.appointments =
          db.appointments.map
            (fun (a : Appointment) => if a.id == appointment_id
              then { a with status := AppointmentStatus.CANCELLED } else a) := by
        simp [cancelAppointment, hfind, hst]
      have h2 : (cancelAppointment now appointment_id db).1.appointments.find?
          (fun a => a.id == appointment_id) =
          some { appt with status := AppointmentStatus.CANCELLED } := by
        rw [h1, find?_over_map]
        have hsame : (fun (a : Appointment) =>
            (if a.id == appointment_id
              then { a with status := AppointmentStatus.CANCELLED } else a).id ==
              appointment_id) = (fun a => a.id == appointment_id) := by
          funext a
          by_cases h : (a.id == appointment_id) = true <;> simp [h]
        rw [hsame, hfind]
        have hideq : appt.id = appointment_id := by simpa using hid
        simp [hideq]
      generalize hg : (cancelAppointment now appointment_id db).1 = db1 at h2
      simp [cancelAppointment, h2]
  · intro h
    simp [cancelAppointment, h]

/-- Witness for C4: on `dbB`, cancelling appointment 101 twice yields
success then "already cancelled"; cancelling absent id 999 yields
"Appointment not found." with the store unchanged. -/
theorem cancelAppointment_not_idempotent_witness :
    ((cancelAppointment 0 101 dbB).2.success = true ∧
     (cancelAppointment 0 101 (cancelAppointment 0 101 dbB).1).2 =
       ⟨false, "Appointment is already cancelled."⟩) ∧
    cancelAppointment 0 999 dbB = (dbB, ⟨false, "Appointment not found."⟩) :=
  ⟨(cancelAppointment_not_idempotent 0 0 101 dbB).1
      ⟨101, 5, 2, 100, .CONFIRMED⟩ rfl (by decide),
    (cancelAppointment_not_idempotent 0 0 999 dbB).2 rfl⟩

/-- C5 evaluated at the failing input: calling `updateAppointment` with
an appointmentId that matches no Appointment does not return a
success=false result — the `None`-filled construction of the required
response fields raises a pydantic ValidationError that escapes through
the `except` handler (modelled as `Except.error`), with the store
unchanged. -/
theorem updateAppointment_missing_raises :
    updateAppointment 0 101 none AppointmentStatus.CANCELLED dbEmpty =
      (dbEmpty, Except.error
        "ValidationError: none is not an allowed value (updatedAppointment, notification)") :=
  rfl

/-- C8: `updateAppointment` never reads or writes Availability rows —
for every input and store, the availabilities after the call (on every
path, the escaping-exception path included) equal the availabilities
before it. -/
theorem updateAppointment_availability_frame (now appointmentId : Nat)
    (newScheduledTime : Option Nat) (status : AppointmentStatus)
    (db : DB) :
    (updateAppointment now appointmentId newScheduledTime status db).1.availabilities =
      db.availabilities := by
  rcases hf : db.appointments.find? (fun a => a.id == appointmentId)
    with _ | appt <;> simp [updateAppointment, hf]

/-- C6: on an unseen (professionalId, datetime) pair,
`updateAvailability` appends exactly one new Availability row with the
given flag and exactly one Notification to the professional; on a seen
pair it rewrites the found row's flag in place — no new row, the row
count unchanged — and still appends exactly one Notification to the
professional. -/
theorem updateAvailability_cases (now professionalId t : Nat)
    (flag : Bool) (db : DB) :
    (db.availabilities.find?
        (fun a => a.professionalId == professionalId && a.datetime == t) =
          none →
      (updateAvailability now professionalId t flag db).1.availabilities =
        db.availabilities ++
          [⟨db.nextAvailabilityId, professionalId, t, flag⟩] ∧
      ∃ n : Notification,
        (updateAvailability now professionalId t flag db).1.notifications =
          db.notifications ++ [n] ∧ n.userId = professionalId) ∧
    (∀ found : Availability,
      db.availabilities.find?
        (fun a => a.professionalId == professionalId && a.datetime == t) =
          some found →
      (updateAvailability now professionalId t flag db).1.availabilities =
        db.availabilities.map
          (fun (s : Availability) => if s.id == found.id
            then { s with isAvailable := flag } else s) ∧
      (updateAvailability now professionalId t flag db).1.availabilities.length =
        db.availabilities.length ∧
      ∃ n : Notification,
        (updateAvailability now professionalId t flag db).1.notifications =
          db.notifications ++ [n] ∧ n.userId = professionalId) := by
  constructor
  · intro h
    refine ⟨by simp [updateAvailability, h], ?_⟩
    refine ⟨⟨db.nextNotificationId, professionalId,
      "Your availability for " ++ strftimeYmdHM t ++ " has been set to " ++
        (if flag then "available" else "not available") ++ ".",
      now, false⟩, ?_, rfl⟩
    simp [updateAvailability, h]
  · intro found h
    refine ⟨by simp [updateAvailability, h],
      by simp [updateAvailability, h], ?_⟩
    refine ⟨⟨db.nextNotificationId, professionalId,
      "Your availability for " ++ strftimeYmdHM t ++ " has been set to " ++
        (if flag then "available" else "not available") ++ ".",
      now, false⟩, ?_, rfl⟩
    simp [updateAvailability, h]

/-- Witness for C6: the create branch on the empty store and the
in-place-update branch on `dbA`. -/
theorem updateAvailability_cases_witness :
    ((updateAvailability 0 3 200 true dbEmpty).1.availabilities =
        dbEmpty.availabilities ++ [⟨dbEmpty.nextAvailabilityId, 3, 200, true⟩] ∧
      ∃ n : Notification,
        (updateAvailability 0 3 200 true dbEmpty).1.notifications =
          dbEmpty.notifications ++ [n] ∧ n.userId = 3) ∧
    ((updateAvailability 0 2 100 false dbA).1.availabilities =
        dbA.availabilities.map
          (fun (s : Availability) =>
            if s.id == (⟨1, 2, 100, true⟩ : Availability).id
            then { s with isAvailable := false } else s) ∧
      (updateAvailability 0 2 100 false dbA).1.availabilities.length =
        dbA.availabilities.length ∧
      ∃ n : Notification,
        (updateAvailability 0 2 100 false dbA).1.notifications =
          dbA.notifications ++ [n] ∧ n.userId = 2) :=
  ⟨(updateAvailability_cases 0 3 200 true dbEmpty).1 rfl,
    (updateAvailability_cases 0 2 100 false dbA).2 ⟨1, 2, 100, true⟩ rfl⟩

/-- A store with one professional (profile "Ada Lovelace") and one slot
whose instant lies in the sub-millisecond tail of day 0:
23:59:59.999500, i.e. microsecond 86399999500. -/
def db9 : DB :=
  ⟨[⟨1, "Ada", "Lovelace"⟩], [⟨1, 1⟩], [⟨1, 1, 86399999500, true⟩],
    [], [], 2, 1, 1⟩

/-- C9 counterexample: a slot at 23:59:59.999500 of the requested day is
outside the claimed inclusive boundary [00:00:00, 23:59:59.999], yet
`checkAvailability` selects and returns it — the code's filter is
`datetime >= 00:00:00 and datetime < 23:59:59.999999`, not the claimed
millisecond-inclusive one. -/
theorem checkAvailability_boundary_cex :
    checkAvailabilitySelect (some 1) (some 0) db9 =
      [⟨1, 1, 86399999500, true⟩] ∧
    specClaimedDaySelect (some 1) (some 0) db9 = [] ∧
    checkAvailability (some 1) (some 0) db9 =
      some ⟨[⟨1, "Ada Lovelace", true, some 86399999500⟩]⟩ :=
  ⟨rfl, rfl, rfl⟩

/-- C9 amended: for every optional professionalId and optional calendar
date, the rows `checkAvailability` selects are exactly the Availability
rows satisfying both supplied filters with AND semantics, where the
date filter selects the half-open day range [00:00:00,
23:59:59.999999) — `datetime >= day start` and strictly below
23:59:59.999999 — and when nothing matches, the call returns an empty
list and never an error. -/
theorem checkAvailability_select_spec (professionalId date : Option Nat)
    (db : DB) :
    (∀ a : Availability,
      a ∈ checkAvailabilitySelect professionalId date db ↔
      (a ∈ db.availabilities ∧
        (∀ p, professionalId = some p → a.professionalId = p) ∧
        (∀ d, date = some d →
          d * usPerDay ≤ a.datetime ∧
            a.datetime < d * usPerDay + 86399999999))) ∧
    (checkAvailabilitySelect professionalId date db = [] →
      checkAvailability professionalId date db = some ⟨[]⟩) := by
  constructor
  · intro a
    rw [checkAvailabilitySelect, List.mem_filter]
    cases professionalId <;> cases date <;>
      simp [checkAvailabilityFilter, dayEndMax, and_assoc]
  · intro h
    rw [checkAvailability, h]
    rfl

/-- Witness for C9's amended theorem: no slot matches on the empty
store, and the call returns the empty response, not an error. -/
theorem checkAvailability_select_spec_witness :
    checkAvailability (some 1) (some 0) dbEmpty = some ⟨[]⟩ :=
  (checkAvailability_select_spec (some 1) (some 0) dbEmpty).2 rfl

/-- C10: when no ProfessionalProfile row has the requested id,
`getAvailableTimeSlots` returns an empty availabilities list — not a
not-found error — and leaves the store unchanged. -/
theorem getAvailableTimeSlots_no_profile
    (professionalId start_date end_date : Nat) (db : DB)
    (h : ∀ p ∈ db.professionalProfiles, p.id ≠ professionalId) :
    getAvailableTimeSlots professionalId start_date end_date db =
      (db, some ⟨[]⟩) := by
  have hf : db.professionalProfiles.find?
      (fun p => p.id == professionalId) = none := by
    rw [List.find?_eq_none]
    intro p hp
    simpa using h p hp
  simp [getAvailableTimeSlots, hf]

/-- Witness for C10 on the empty store. -/
theorem getAvailableTimeSlots_no_profile_witness :
    getAvailableTimeSlots 1 0 1000 dbEmpty = (dbEmpty, some ⟨[]⟩) :=
  getAvailableTimeSlots_no_profile 1 0 1000 dbEmpty
    (by intro p hp; simp [dbEmpty] at hp)
